import Mathlib

/-!
Shallow embedding of the tool-calling chatbot repository: `chatbot.py`
(the local variant, with the tool invoker `execute_tool`, the dispatcher
`process_query` and the interactive `chat_loop`) and `client.py` (the
remote MCP variant, with its `process_query`, `chat_loop` and
`connect_to_server_and_run`), together with theorems settling the
specification claims.
-/

namespace McpSpec

/-- A JSON-like Python runtime value, covering the shapes handler results
take in the repository: `None`, strings, ints, bools, lists and
string-keyed dicts. -/
inductive PyValue where
  | none
  | str (s : String)
  | int (n : Int)
  | bool (b : Bool)
  | list (xs : List PyValue)
  | dict (kvs : List (String × PyValue))

/-- Python keyword-argument bag: an ordered mapping from parameter name
to value, as passed with `**tool_args`. -/
def Args : Type := List (String × PyValue)

/-- A raised Python exception, in the variants the repository can
produce: a dict-lookup `KeyError`, a `TypeError`, an
`UnboundLocalError`, or a generic exception carrying a message (gateway
failures, channel faults, handler failures). -/
inductive PyErr where
  | keyError (key : String)
  | typeError (msg : String)
  | unboundLocal (nm : String)
  | exc (msg : String)
deriving DecidableEq

/-- The ASCII apostrophe character. -/
def aposChar : Char := Char.ofNat 39

/-- The ASCII double-quote character. -/
def dquoteChar : Char := Char.ofNat 34

/-- The ASCII backslash character. -/
def bslashChar : Char := Char.ofNat 92

/-- The whitespace characters Python's `str.strip()` removes (ASCII
range): space, tab, newline, carriage return, vertical tab, form feed. -/
def isPySpace (c : Char) : Bool :=
  (c == Char.ofNat 32) || (c == Char.ofNat 9) || (c == Char.ofNat 10) ||
  (c == Char.ofNat 13) || (c == Char.ofNat 11) || (c == Char.ofNat 12)

/-- Python `str.strip()`: drop leading and trailing whitespace. -/
def pyStrip (s : String) : String :=
  String.mk (((s.data.dropWhile isPySpace).reverse.dropWhile isPySpace).reverse)

/-- Python `str.lower()` restricted to ASCII letters (every input in the
repository and in the claims is ASCII). -/
def pyLower (s : String) : String :=
  String.mk (s.data.map Char.toLower)

/-- Python `sep.join(items)` on a list of strings. -/
def strJoin (sep : String) : List String → String
  | [] => ""
  | [x] => x
  | x :: xs => x ++ sep ++ strJoin sep xs

/-- The elements of a Python list as strings, provided every element is a
`str`; `Option.none` as soon as one is not. -/
def allStrs : List PyValue → Option (List String)
  | [] => some []
  | PyValue.str s :: rest => (allStrs rest).map (fun ss => s :: ss)
  | _ => Option.none

/-- Python `sep.join(xs)` on a Python list value: raises `TypeError`
unless every element is a `str`. -/
def pyJoin (sep : String) (xs : List PyValue) : Except PyErr String :=
  match allStrs xs with
  | some ss => Except.ok (strJoin sep ss)
  | Option.none => Except.error (PyErr.typeError "sequence item: expected str instance")

/-- Python truthiness of a value, as tested by `if result:`. -/
def pyTruthy : PyValue → Bool
  | PyValue.none => false
  | PyValue.str s => !(s == "")
  | PyValue.int n => !(n == 0)
  | PyValue.bool b => b
  | PyValue.list xs => !xs.isEmpty
  | PyValue.dict kvs => !kvs.isEmpty

/-- Lower-case hexadecimal digit. -/
def hexDigit (n : Nat) : Char :=
  if n < 10 then Char.ofNat (48 + n) else Char.ofNat (87 + n)

/-- Two-digit lower-case hex rendering of a byte. -/
def hex2 (n : Nat) : String :=
  String.mk [hexDigit (n / 16 % 16), hexDigit (n % 16)]

/-- Four-digit lower-case hex rendering of a code unit. -/
def hex4 (n : Nat) : String :=
  String.mk [hexDigit (n / 4096 % 16), hexDigit (n / 256 % 16),
    hexDigit (n / 16 % 16), hexDigit (n % 16)]

/-- Escape one character inside a Python string repr quoted by `q`. -/
def pyReprEscChar (q : Char) (c : Char) : String :=
  if c == bslashChar then String.mk [bslashChar, bslashChar]
  else if c == q then String.mk [bslashChar, q]
  else if c == Char.ofNat 10 then String.mk [bslashChar, Char.ofNat 110]
  else if c == Char.ofNat 13 then String.mk [bslashChar, Char.ofNat 114]
  else if c == Char.ofNat 9 then String.mk [bslashChar, Char.ofNat 116]
  else if c.toNat < 32 || c.toNat == 127 then String.mk [bslashChar, Char.ofNat 120] ++ hex2 c.toNat
  else String.singleton c

/-- Python `repr` of a string: single-quoted, unless the string contains
a single quote and no double quote, in which case double-quoted. -/
def pyReprStr (s : String) : String :=
  let q := if s.data.contains aposChar && !(s.data.contains dquoteChar)
    then dquoteChar else aposChar
  String.singleton q ++ String.join (s.data.map (pyReprEscChar q)) ++ String.singleton q

mutual

/-- Python `repr` of a value. -/
def pyRepr : PyValue → String
  | PyValue.none => "None"
  | PyValue.bool true => "True"
  | PyValue.bool false => "False"
  | PyValue.int n => toString n
  | PyValue.str s => pyReprStr s
  | PyValue.list xs => "[" ++ pyReprItems xs ++ "]"
  | PyValue.dict kvs => "\x7b" ++ pyReprPairs kvs ++ "\x7d"

/-- `repr` of the elements of a list, comma-separated. -/
def pyReprItems : List PyValue → String
  | [] => ""
  | [x] => pyRepr x
  | x :: xs => pyRepr x ++ ", " ++ pyReprItems xs

/-- `repr` of the entries of a dict, comma-separated. -/
def pyReprPairs : List (String × PyValue) → String
  | [] => ""
  | [(k, v)] => pyReprStr k ++ ": " ++ pyRepr v
  | (k, v) :: kvs => pyReprStr k ++ ": " ++ pyRepr v ++ ", " ++ pyReprPairs kvs

end

/-- Python `str()` of a value, as used by `print(result)` and by the
final branch of `execute_tool`. -/
def pyStr (v : PyValue) : String :=
  match v with
  | PyValue.str s => s
  | _ => pyRepr v

/-- Python `str(e)` of a raised exception, as interpolated by the loops
into their error messages. -/
def pyErrStr : PyErr → String
  | PyErr.keyError key => pyReprStr key
  | PyErr.typeError msg => msg
  | PyErr.unboundLocal nm =>
      "local variable " ++ pyReprStr nm ++ " referenced before assignment"
  | PyErr.exc msg => msg

/-- Escape one character for a JSON string literal, as Python
`json.dumps` does with its default `ensure_ascii=True`. -/
def jsonEscChar (c : Char) : String :=
  if c == dquoteChar then String.mk [bslashChar, dquoteChar]
  else if c == bslashChar then String.mk [bslashChar, bslashChar]
  else if c == Char.ofNat 10 then String.mk [bslashChar, Char.ofNat 110]
  else if c == Char.ofNat 13 then String.mk [bslashChar, Char.ofNat 114]
  else if c == Char.ofNat 9 then String.mk [bslashChar, Char.ofNat 116]
  else if c == Char.ofNat 8 then String.mk [bslashChar, Char.ofNat 98]
  else if c == Char.ofNat 12 then String.mk [bslashChar, Char.ofNat 102]
  else if c.toNat < 32 then String.mk [bslashChar, Char.ofNat 117] ++ hex4 c.toNat
  else if c.toNat < 127 then String.singleton c
  else if c.toNat < 65536 then String.mk [bslashChar, Char.ofNat 117] ++ hex4 c.toNat
  else
    String.mk [bslashChar, Char.ofNat 117] ++ hex4 (55296 + (c.toNat - 65536) / 1024) ++
    String.mk [bslashChar, Char.ofNat 117] ++ hex4 (56320 + (c.toNat - 65536) % 1024)

/-- The JSON string literal for `s`. -/
def jsonQuote (s : String) : String :=
  String.singleton dquoteChar ++ String.join (s.data.map jsonEscChar) ++
    String.singleton dquoteChar

/-- `2*level` spaces: the indentation `json.dumps(..., indent=2)` places
before an element at nesting depth `level`. -/
def jsonPad (level : Nat) : String :=
  String.mk (List.replicate (2 * level) (Char.ofNat 32))

mutual

/-- Python `json.dumps(v, indent=2)` rendered at nesting depth `level`. -/
def jsonDump (level : Nat) : PyValue → String
  | PyValue.none => "null"
  | PyValue.bool true => "true"
  | PyValue.bool false => "false"
  | PyValue.int n => toString n
  | PyValue.str s => jsonQuote s
  | PyValue.list [] => "[]"
  | PyValue.list (x :: xs) =>
      "[\n" ++ jsonDumpItems (level + 1) (x :: xs) ++ "\n" ++ jsonPad level ++ "]"
  | PyValue.dict [] => "\x7b\x7d"
  | PyValue.dict (kv :: kvs) =>
      "\x7b\n" ++ jsonDumpEntries (level + 1) (kv :: kvs) ++ "\n" ++ jsonPad level ++ "\x7d"

/-- The elements of a JSON array, one per line, comma-separated. -/
def jsonDumpItems (level : Nat) : List PyValue → String
  | [] => ""
  | [x] => jsonPad level ++ jsonDump level x
  | x :: xs => jsonPad level ++ jsonDump level x ++ ",\n" ++ jsonDumpItems level xs

/-- One `"key": value` line of a JSON object. -/
def jsonDumpEntry (level : Nat) (k : String) (v : PyValue) : String :=
  jsonPad level ++ jsonQuote k ++ ": " ++ jsonDump level v

/-- The entries of a JSON object, one per line, comma-separated. -/
def jsonDumpEntries (level : Nat) : List (String × PyValue) → String
  | [] => ""
  | [(k, v)] => jsonDumpEntry level k v
  | (k, v) :: kvs => jsonDumpEntry level k v ++ ",\n" ++ jsonDumpEntries level kvs

end

/-- Python `json.dumps(v, indent=2)`, as `execute_tool` applies to a dict
result. -/
def json_dumps_indent2 (v : PyValue) : String := jsonDump 0 v

/-- Lookup in a Python dict with string keys (keys unique, first match). -/
def pyDictLookup {α : Type} (m : List (String × α)) (k : String) : Option α :=
  match m with
  | [] => Option.none
  | (k2, v) :: rest => if k2 = k then some v else pyDictLookup rest k

/-- Python dict assignment `m[k] = v`: replaces the value at an existing
key in place, otherwise appends a new entry. -/
def pyDictSet {α : Type} (m : List (String × α)) (k : String) (v : α) :
    List (String × α) :=
  match m with
  | [] => [(k, v)]
  | (k2, v2) :: rest => if k2 = k then (k, v) :: rest else (k2, v2) :: pyDictSet rest k v

/-- A registered tool handler: a callable over a keyword-argument bag
which returns a value or raises. -/
def Handler : Type := Args → Except PyErr PyValue

/-- The fixed sentinel string `execute_tool` substitutes for a `None`
outcome ("The operation completed but didn't return any results."). -/
def no_results_sentinel : String :=
  "The operation completed but didn" ++ String.singleton aposChar ++
    "t return any results."

/-- The normalization block of `execute_tool` (chatbot.py lines 111-119):
`None` becomes the fixed sentinel, a list is `",".join`-ed, a dict is
serialized with `json.dumps(result, indent=2)`, and anything else is
`str()`-converted. -/
def normalize_result (result : PyValue) : Except PyErr String :=
  match result with
  | PyValue.none => Except.ok no_results_sentinel
  | PyValue.list xs => pyJoin "," xs
  | PyValue.dict kvs => Except.ok (json_dumps_indent2 (PyValue.dict kvs))
  | r => Except.ok (pyStr r)

/-- `execute_tool(tool_name, tool_args, mapping_tool_function)`
(chatbot.py lines 108-119): look the handler up in the mapping (a
missing key raises `KeyError`), call it with the argument bag (its
exceptions propagate: the body has no try/except), then normalize the
outcome. -/
def execute_tool (tool_name : String) (tool_args : Args)
    (mapping_tool_function : List (String × Handler)) : Except PyErr String :=
  match pyDictLookup mapping_tool_function tool_name with
  | Option.none => Except.error (PyErr.keyError tool_name)
  | some f =>
    match f tool_args with
    | Except.error e => Except.error e
    | Except.ok result => normalize_result result

/-- The model gateway's interpreted response for one turn: the first
candidate's first content part either carries a function call or plain
text. -/
inductive Intent where
  | functionCall (nm : String) (args : Args)
  | plainText (text : String)

/-- The dispatch performed by `process_query` (chatbot.py lines 148-176)
once the model response arrives: a recognised function-call name runs the
matching handler directly and returns its raw outcome; an unrecognised
name leaves the local `result` unbound, so `return result` raises
`UnboundLocalError`; a plain-text response is printed inside the function
and `None` is returned. -/
def process_query (search_papers : Handler) (extract_info : Handler)
    (intent : Intent) : Except PyErr PyValue :=
  match intent with
  | Intent.functionCall nm args =>
    if nm = "search_papers" then search_papers args
    else if nm = "extract_info" then extract_info args
    else Except.error (PyErr.unboundLocal "result")
  | Intent.plainText _ => Except.ok PyValue.none

/-- `process_query` including the gateway call itself, which can raise
(a transport failure or malformed response surfaces as an exception). -/
def run_process_query (gateway : String → Except PyErr Intent)
    (search_papers : Handler) (extract_info : Handler)
    (query : String) : Except PyErr PyValue :=
  match gateway query with
  | Except.error e => Except.error e
  | Except.ok intent => process_query search_papers extract_info intent

/-- One observable event of an interactive loop run. -/
inductive LoopEvent where
  | dispatched (query : String)
  | resultShown (text : String)
  | errorShown (msg : String)
  | quitExit
deriving DecidableEq

/-- `chat_loop` of chatbot.py (lines 179-192) run on a finite list of
input lines: each line is stripped; the token `quit` (compared
case-insensitively) breaks the loop; otherwise the stripped query is
dispatched to `process_query`, a truthy result is printed with `print`,
and any exception is caught by the `except` clause and printed as an
error message, after which the loop continues with the next line. -/
def chat_loop_run (process : String → Except PyErr PyValue) :
    List String → List LoopEvent
  | [] => []
  | line :: rest =>
    if pyLower (pyStrip line) = "quit" then [LoopEvent.quitExit]
    else
      (LoopEvent.dispatched (pyStrip line) ::
        (match process (pyStrip line) with
         | Except.ok v =>
           if pyTruthy v then [LoopEvent.resultShown (pyStr v)] else []
         | Except.error e =>
           [LoopEvent.errorShown ("\n Error: " ++ pyErrStr e)]))
      ++ chat_loop_run process rest

/-- `process_query` of client.py (lines 23-48): the gateway interprets
the query; on a function call the tool is invoked over the MCP session
and the first content part's text is printed; on plain text the text is
printed; any step may raise. The printed tool text is returned as the
observable outcome. -/
def mcp_process_query (gateway : String → Except PyErr Intent)
    (call_tool : String → Args → Except PyErr String)
    (query : String) : Except PyErr (Option String) :=
  match gateway query with
  | Except.error e => Except.error e
  | Except.ok (Intent.functionCall nm args) =>
    match call_tool nm args with
    | Except.error e => Except.error e
    | Except.ok text => Except.ok (some text)
  | Except.ok (Intent.plainText _) => Except.ok Option.none

/-- `chat_loop` of client.py (lines 50-65) on a finite list of input
lines: the same strip-and-compare quit handling as the local loop; the
result display happens inside `process_query`; every exception is caught
by the `except` clause and printed, and the loop continues. -/
def mcp_chat_loop_run (process : String → Except PyErr (Option String)) :
    List String → List LoopEvent
  | [] => []
  | line :: rest =>
    if pyLower (pyStrip line) = "quit" then [LoopEvent.quitExit]
    else
      (LoopEvent.dispatched (pyStrip line) ::
        (match process (pyStrip line) with
         | Except.ok (some text) => [LoopEvent.resultShown text]
         | Except.ok Option.none => []
         | Except.error e => [LoopEvent.errorShown ("\nError: " ++ pyErrStr e)]))
      ++ mcp_chat_loop_run process rest

/-- A remote tool descriptor as carried by the tool-host's `list_tools`
response: a name, a description, and a JSON-schema dict. -/
structure RemoteTool where
  name : String
  description : String
  inputSchema : List (String × PyValue)

/-- A Gemini function declaration as built by
`connect_to_server_and_run` from one remote tool. -/
structure FunctionDeclaration where
  name : String
  description : String
  parameters : List (String × PyValue)

/-- The descriptor translation in `connect_to_server_and_run` (client.py
lines 84-99): copy name and description unchanged, and keep every
`inputSchema` entry whose key is neither `additionalProperties` nor
`$schema`. -/
def translate_tool (t : RemoteTool) : FunctionDeclaration :=
  ⟨t.name, t.description,
    t.inputSchema.filter (fun kv => !(kv.1 == "additionalProperties" || kv.1 == "$schema"))⟩

/-- Channel-level actions traced by the remote session setup. -/
inductive SessionAction where
  | channelOpened
  | sessionEntered
  | initialized
  | toolsListed
  | toolsRegistered
  | loopRan
  | sessionExited
  | channelClosed
deriving DecidableEq, BEq

/-- The outcome of `connect_to_server_and_run`: the propagated result,
the registered Gemini tool declarations, and the trace of channel
actions. -/
structure ConnectResult where
  outcome : Except PyErr Unit
  available_tools : List FunctionDeclaration
  trace : List SessionAction

/-- `connect_to_server_and_run` of client.py (lines 67-101). The two
nested `async with` statements desugar to try/finally blocks, so the
session exit and the channel close run exactly once after the body,
whether the body returns normally or raises; errors raised by the
handshake (`session.initialize()`), by the tool listing, or by the loop
body propagate to the caller after that teardown. -/
def connect_to_server_and_run (handshake : Except PyErr Unit)
    (listToolsResp : Except PyErr (List RemoteTool))
    (loopOutcome : Except PyErr Unit) : ConnectResult :=
  match handshake with
  | Except.error e =>
    ⟨Except.error e, [],
      [SessionAction.channelOpened, SessionAction.sessionEntered,
       SessionAction.sessionExited, SessionAction.channelClosed]⟩
  | Except.ok _ =>
    match listToolsResp with
    | Except.error e =>
      ⟨Except.error e, [],
        [SessionAction.channelOpened, SessionAction.sessionEntered,
         SessionAction.initialized, SessionAction.sessionExited,
         SessionAction.channelClosed]⟩
    | Except.ok tools =>
      ⟨loopOutcome, tools.map translate_tool,
        [SessionAction.channelOpened, SessionAction.sessionEntered,
         SessionAction.initialized, SessionAction.toolsListed,
         SessionAction.toolsRegistered, SessionAction.loopRan,
         SessionAction.sessionExited, SessionAction.channelClosed]⟩

/-- `needle` occurs contiguously inside `hay`. -/
def strContains (needle hay : String) : Prop :=
  needle.data <:+: hay.data

lemma data_append (s t : String) : (s ++ t).data = s.data ++ t.data := by
  cases s
  cases t
  rfl

lemma strContains_appendL {needle a : String} (b : String)
    (h : strContains needle a) : strContains needle (a ++ b) := by
  obtain ⟨s, t, hst⟩ := h
  refine ⟨s, t ++ b.data, ?_⟩
  rw [data_append, ← hst]
  simp

lemma strContains_appendR (a : String) {needle b : String}
    (h : strContains needle b) : strContains needle (a ++ b) := by
  obtain ⟨s, t, hst⟩ := h
  refine ⟨a.data ++ s, t, ?_⟩
  rw [data_append, ← hst]
  simp

lemma allStrs_map_str (ss : List String) :
    allStrs (ss.map PyValue.str) = some ss := by
  induction ss with
  | nil => rfl
  | cons s rest ih => simp [allStrs, ih]

lemma jsonQuote_in_entry (level : Nat) (k : String) (v : PyValue) :
    strContains (jsonQuote k) (jsonDumpEntry level k v) := by
  unfold jsonDumpEntry
  refine ⟨(jsonPad level).data, (": ").data ++ (jsonDump level v).data, ?_⟩
  simp [data_append]

lemma jsonQuote_in_entries (level : Nat) (k : String) (v : PyValue) :
    ∀ kvs : List (String × PyValue), (k, v) ∈ kvs →
      strContains (jsonQuote k) (jsonDumpEntries level kvs) := by
  intro kvs
  induction kvs with
  | nil => intro h; cases h
  | cons kv rest ih =>
    intro h
    rcases List.mem_cons.mp h with heq | hmem
    · obtain ⟨k1, v1⟩ := kv
      obtain ⟨hk, hv⟩ := Prod.mk.injEq .. ▸ heq
      subst hk
      subst hv
      cases rest with
      | nil =>
        simpa [jsonDumpEntries] using jsonQuote_in_entry level k v
      | cons kv2 rest2 =>
        simp only [jsonDumpEntries]
        exact strContains_appendL _ (strContains_appendL _ (jsonQuote_in_entry level k v))
    · obtain ⟨k1, v1⟩ := kv
      cases rest with
      | nil => cases hmem
      | cons kv2 rest2 =>
        simp only [jsonDumpEntries]
        exact strContains_appendR _ (ih hmem)

lemma jsonQuote_in_dump (kvs : List (String × PyValue)) (k : String) (v : PyValue)
    (h : (k, v) ∈ kvs) :
    strContains (jsonQuote k) (json_dumps_indent2 (PyValue.dict kvs)) := by
  cases kvs with
  | nil => cases h
  | cons kv rest =>
    simp only [json_dumps_indent2, jsonDump]
    exact strContains_appendL _ (strContains_appendL _ (strContains_appendL _
      (strContains_appendR _ (jsonQuote_in_entries 1 k v (kv :: rest) h))))

lemma chat_loop_run_quit (process : String → Except PyErr PyValue)
    (line : String) (rest : List String) (h : pyLower (pyStrip line) = "quit") :
    chat_loop_run process (line :: rest) = [LoopEvent.quitExit] := by
  simp [chat_loop_run, h]

lemma chat_loop_run_error (process : String → Except PyErr PyValue)
    (line : String) (rest : List String) (e : PyErr)
    (hq : ¬ pyLower (pyStrip line) = "quit")
    (hp : process (pyStrip line) = Except.error e) :
    chat_loop_run process (line :: rest) =
      LoopEvent.dispatched (pyStrip line) ::
      LoopEvent.errorShown ("\n Error: " ++ pyErrStr e) ::
      chat_loop_run process rest := by
  simp [chat_loop_run, hq, hp]

lemma chat_loop_run_ok (process : String → Except PyErr PyValue)
    (line : String) (rest : List String) (v : PyValue)
    (hq : ¬ pyLower (pyStrip line) = "quit")
    (hp : process (pyStrip line) = Except.ok v) :
    chat_loop_run process (line :: rest) =
      LoopEvent.dispatched (pyStrip line) ::
      ((if pyTruthy v then [LoopEvent.resultShown (pyStr v)] else []) ++
        chat_loop_run process rest) := by
  simp [chat_loop_run, hq, hp]

lemma mcp_chat_loop_run_quit (process : String → Except PyErr (Option String))
    (line : String) (rest : List String) (h : pyLower (pyStrip line) = "quit") :
    mcp_chat_loop_run process (line :: rest) = [LoopEvent.quitExit] := by
  simp [mcp_chat_loop_run, h]

lemma mcp_chat_loop_run_error (process : String → Except PyErr (Option String))
    (line : String) (rest : List String) (e : PyErr)
    (hq : ¬ pyLower (pyStrip line) = "quit")
    (hp : process (pyStrip line) = Except.error e) :
    mcp_chat_loop_run process (line :: rest) =
      LoopEvent.dispatched (pyStrip line) ::
      LoopEvent.errorShown ("\nError: " ++ pyErrStr e) ::
      mcp_chat_loop_run process rest := by
  simp [mcp_chat_loop_run, hq, hp]

lemma pyDictLookup_set (m : List (String × Handler)) (k : String) (v : Handler) :
    pyDictLookup (pyDictSet m k v) k = some v := by
  induction m with
  | nil => simp [pyDictSet, pyDictLookup]
  | cons kv rest ih =>
    obtain ⟨k2, v2⟩ := kv
    by_cases hk : k2 = k
    · simp [pyDictSet, pyDictLookup, hk]
    · simp [pyDictSet, pyDictLookup, hk, ih]

/-- Claim C1: the normalization inside `execute_tool` is total and
deterministic and maps each raw outcome shape to exactly one text: a
`None` outcome to the fixed sentinel message, a list of strings to the
comma-joined string in element order (in particular `["a","b"]` to
`"a,b"`), a dict to its `json.dumps(..., indent=2)` pretty-printing in
which every key occurs, and any other value to its plain `str()`
conversion. -/
theorem normalize_result_shapes :
    normalize_result PyValue.none = Except.ok no_results_sentinel
  ∧ (∀ ss : List String,
      normalize_result (PyValue.list (ss.map PyValue.str)) = Except.ok (strJoin "," ss))
  ∧ normalize_result (PyValue.list [PyValue.str "a", PyValue.str "b"]) = Except.ok "a,b"
  ∧ (∀ kvs : List (String × PyValue),
      normalize_result (PyValue.dict kvs)
        = Except.ok (json_dumps_indent2 (PyValue.dict kvs))
      ∧ ∀ k v, (k, v) ∈ kvs →
          strContains (jsonQuote k) (json_dumps_indent2 (PyValue.dict kvs)))
  ∧ (∀ s, normalize_result (PyValue.str s) = Except.ok (pyStr (PyValue.str s)))
  ∧ (∀ n, normalize_result (PyValue.int n) = Except.ok (pyStr (PyValue.int n)))
  ∧ (∀ b, normalize_result (PyValue.bool b) = Except.ok (pyStr (PyValue.bool b))) := by
  refine ⟨rfl, ?_, rfl, ?_, fun s => rfl, fun n => rfl, fun b => rfl⟩
  · intro ss
    simp [normalize_result, pyJoin, allStrs_map_str]
  · intro kvs
    exact ⟨rfl, fun k v h => jsonQuote_in_dump kvs k v h⟩

/-- Claim C1 witness: the dict conjunct applied at a concrete two-key
mapping. -/
theorem normalize_result_shapes_witness :
    normalize_result (PyValue.dict [("a", PyValue.int 1), ("b", PyValue.int 2)])
      = Except.ok (json_dumps_indent2
          (PyValue.dict [("a", PyValue.int 1), ("b", PyValue.int 2)]))
    ∧ strContains (jsonQuote "a")
        (json_dumps_indent2 (PyValue.dict [("a", PyValue.int 1), ("b", PyValue.int 2)]))
    ∧ strContains (jsonQuote "b")
        (json_dumps_indent2 (PyValue.dict [("a", PyValue.int 1), ("b", PyValue.int 2)])) :=
  ⟨(normalize_result_shapes.2.2.2.1 _).1,
   (normalize_result_shapes.2.2.2.1 _).2 "a" (PyValue.int 1) (by simp),
   (normalize_result_shapes.2.2.2.1 _).2 "b" (PyValue.int 2) (by simp)⟩

/-- Claim C2 counterexample: with a `search_papers` handler returning the
list `["id1","id2"]`, the local Conversation Loop displays the `str()`
of the raw list, while `execute_tool` would normalize the same outcome
to `"id1,id2"`; the displayed text is not the normalized one, because
`process_query` calls the handler directly and never goes through
`execute_tool`. -/
theorem chat_loop_shows_raw_list_not_normalized :
    chat_loop_run
      (fun _ => process_query
        (fun _ => Except.ok (PyValue.list [PyValue.str "id1", PyValue.str "id2"]))
        (fun _ => Except.ok (PyValue.str "info"))
        (Intent.functionCall "search_papers" [("topic", PyValue.str "x")]))
      ["find"]
    = [LoopEvent.dispatched "find",
       LoopEvent.resultShown (pyStr (PyValue.list [PyValue.str "id1", PyValue.str "id2"]))]
    ∧ execute_tool "search_papers" [("topic", PyValue.str "x")]
        [("search_papers",
          fun _ => Except.ok (PyValue.list [PyValue.str "id1", PyValue.str "id2"]))]
      = Except.ok "id1,id2"
    ∧ pyStr (PyValue.list [PyValue.str "id1", PyValue.str "id2"]) ≠ "id1,id2" :=
  ⟨rfl, rfl, by decide⟩

/-- Claim C2 amended: for a turn whose intent is a function call on
either registered tool (`search_papers` or `extract_info`), the
Processing step calls the matching handler directly (the Tool Invoker
`execute_tool` is not consulted) and the loop displays the plain `str()`
conversion of the raw handler outcome whenever that outcome is truthy. -/
theorem chat_loop_displays_raw_str
    (sp ei : Handler) (nm : String) (args : Args) (line : String)
    (rest : List String) (v : PyValue)
    (hq : ¬ pyLower (pyStrip line) = "quit")
    (hnm : nm = "search_papers" ∧ sp args = Except.ok v
         ∨ nm = "extract_info" ∧ ei args = Except.ok v)
    (htr : pyTruthy v = true) :
    chat_loop_run
        (fun _ => process_query sp ei (Intent.functionCall nm args))
        (line :: rest)
      = LoopEvent.dispatched (pyStrip line) ::
        LoopEvent.resultShown (pyStr v) ::
        chat_loop_run
          (fun _ => process_query sp ei (Intent.functionCall nm args))
          rest := by
  have hp : process_query sp ei (Intent.functionCall nm args) = Except.ok v := by
    rcases hnm with ⟨hn, hh⟩ | ⟨hn, hh⟩
    · subst hn
      simpa [process_query] using hh
    · subst hn
      simpa [process_query] using hh
  rw [chat_loop_run_ok _ _ _ _ hq hp, htr]
  simp

/-- Claim C2 amended, witness: a concrete truthy list outcome of
`search_papers` and a concrete string outcome of `extract_info` are each
shown as their `str()` conversion. -/
theorem chat_loop_displays_raw_str_witness :
    chat_loop_run
        (fun _ => process_query
          (fun _ => Except.ok (PyValue.list [PyValue.str "id1", PyValue.str "id2"]))
          (fun _ => Except.ok (PyValue.str "info"))
          (Intent.functionCall "search_papers" [("topic", PyValue.str "x")]))
        ["find"]
      = LoopEvent.dispatched "find" ::
        LoopEvent.resultShown (pyStr (PyValue.list [PyValue.str "id1", PyValue.str "id2"])) ::
        []
    ∧ chat_loop_run
        (fun _ => process_query
          (fun _ => Except.ok (PyValue.list [PyValue.str "id1", PyValue.str "id2"]))
          (fun _ => Except.ok (PyValue.str "info"))
          (Intent.functionCall "extract_info" [("paper_id", PyValue.str "1310.7911v2")]))
        ["look it up"]
      = LoopEvent.dispatched "look it up" ::
        LoopEvent.resultShown (pyStr (PyValue.str "info")) ::
        [] := by
  have h1 := chat_loop_displays_raw_str
    (fun _ => Except.ok (PyValue.list [PyValue.str "id1", PyValue.str "id2"]))
    (fun _ => Except.ok (PyValue.str "info"))
    "search_papers" [("topic", PyValue.str "x")] "find" [] _
    (by decide) (Or.inl ⟨rfl, rfl⟩) (by decide)
  have h2 := chat_loop_displays_raw_str
    (fun _ => Except.ok (PyValue.list [PyValue.str "id1", PyValue.str "id2"]))
    (fun _ => Except.ok (PyValue.str "info"))
    "extract_info" [("paper_id", PyValue.str "1310.7911v2")] "look it up" [] _
    (by decide) (Or.inr ⟨rfl, rfl⟩) (by decide)
  exact ⟨by simpa using h1, by simpa using h2⟩

/-- Claim C3 counterexample: the empty input line is not re-prompted
without dispatching — the loop passes it to `process_query` like any
other non-quit line (here a processor that echoes the query it was
given, proving the dispatch happened). -/
theorem empty_input_is_dispatched :
    chat_loop_run (fun q => Except.ok (PyValue.str ("echo:" ++ q))) [""]
      = [LoopEvent.dispatched "", LoopEvent.resultShown "echo:"] := rfl

/-- Claim C3 amended: `"quit"`, `"QUIT"` and `"  quit  "` each transition
both loops to Done; `"quit me"` is dispatched by both loops as an
ordinary query; and the empty input `""` is likewise dispatched by both
loops to the gateway as an ordinary (empty) query — it is not filtered
out before dispatch. -/
theorem quit_detection (p : String → Except PyErr PyValue)
    (p2 : String → Except PyErr (Option String)) (rest : List String) :
    chat_loop_run p ("quit" :: rest) = [LoopEvent.quitExit]
  ∧ chat_loop_run p ("QUIT" :: rest) = [LoopEvent.quitExit]
  ∧ chat_loop_run p ("  quit  " :: rest) = [LoopEvent.quitExit]
  ∧ mcp_chat_loop_run p2 ("quit" :: rest) = [LoopEvent.quitExit]
  ∧ mcp_chat_loop_run p2 ("QUIT" :: rest) = [LoopEvent.quitExit]
  ∧ mcp_chat_loop_run p2 ("  quit  " :: rest) = [LoopEvent.quitExit]
  ∧ (chat_loop_run p ("quit me" :: rest)).head? = some (LoopEvent.dispatched "quit me")
  ∧ (chat_loop_run p ("" :: rest)).head? = some (LoopEvent.dispatched "")
  ∧ (mcp_chat_loop_run p2 ("quit me" :: rest)).head?
      = some (LoopEvent.dispatched "quit me")
  ∧ (mcp_chat_loop_run p2 ("" :: rest)).head? = some (LoopEvent.dispatched "") := by
  refine ⟨chat_loop_run_quit p _ rest (by decide),
    chat_loop_run_quit p _ rest (by decide),
    chat_loop_run_quit p _ rest (by decide),
    mcp_chat_loop_run_quit p2 _ rest (by decide),
    mcp_chat_loop_run_quit p2 _ rest (by decide),
    mcp_chat_loop_run_quit p2 _ rest (by decide), ?_, ?_, ?_, ?_⟩
  · have h1 : ¬ pyLower (pyStrip "quit me") = "quit" := by decide
    simp [chat_loop_run, h1]
    decide
  · have h2 : ¬ pyLower (pyStrip "") = "quit" := by decide
    simp [chat_loop_run, h2]
    decide
  · have h3 : ¬ pyLower (pyStrip "quit me") = "quit" := by decide
    simp [mcp_chat_loop_run, h3]
    decide
  · have h4 : ¬ pyLower (pyStrip "") = "quit" := by decide
    simp [mcp_chat_loop_run, h4]
    decide

/-- Claim C5 counterexample: a handler that raises makes `execute_tool`
re-raise the exception (there is no try/except around the handler call),
instead of returning an `ok` text result carrying an error message. -/
theorem handler_exception_propagates :
    execute_tool "boom" [] [("boom", fun _ => Except.error (PyErr.exc "kaboom"))]
      = Except.error (PyErr.exc "kaboom") := rfl

/-- Claim C5 amended: an exception raised by the handler propagates
unchanged out of `execute_tool`; at the Conversation Loop boundary it is
caught and printed as a user-visible message, and the loop continues
with the next query, so the failure is reported and non-fatal to the
session. -/
theorem handler_error_reported_at_loop
    (m : List (String × Handler)) (nm : String) (args : Args)
    (f : Handler) (e : PyErr) (line : String) (rest : List String)
    (hf : pyDictLookup m nm = some f)
    (he : f args = Except.error e)
    (hq : ¬ pyLower (pyStrip line) = "quit") :
    execute_tool nm args m = Except.error e
  ∧ ∀ p : String → Except PyErr PyValue, p (pyStrip line) = Except.error e →
      chat_loop_run p (line :: rest)
        = LoopEvent.dispatched (pyStrip line) ::
          LoopEvent.errorShown ("\n Error: " ++ pyErrStr e) ::
          chat_loop_run p rest := by
  constructor
  · simp [execute_tool, hf, he]
  · intro p hp
    exact chat_loop_run_error p line rest e hq hp

/-- Claim C5 amended, witness: the propagated error of a concrete raising
handler is reported by the loop, which goes on. -/
theorem handler_error_reported_at_loop_witness :
    execute_tool "boom" [] [("boom", fun _ => Except.error (PyErr.exc "kaboom"))]
      = Except.error (PyErr.exc "kaboom")
    ∧ chat_loop_run (fun _ => Except.error (PyErr.exc "kaboom")) ["go"]
        = LoopEvent.dispatched "go" ::
          LoopEvent.errorShown ("\n Error: " ++ pyErrStr (PyErr.exc "kaboom")) ::
          chat_loop_run (fun _ => Except.error (PyErr.exc "kaboom")) [] := by
  have h := handler_error_reported_at_loop
    [("boom", fun _ => Except.error (PyErr.exc "kaboom"))] "boom" []
    (fun _ => Except.error (PyErr.exc "kaboom")) (PyErr.exc "kaboom") "go" []
    rfl rfl (by decide)
  exact ⟨h.1, h.2 (fun _ => Except.error (PyErr.exc "kaboom")) rfl⟩

/-- Claim C9: the empty list normalizes to the empty string (the join of
zero elements), not to the sentinel — which only a `None` outcome
produces — and the result coincides with normalizing an empty text
result, so the two are indistinguishable. -/
theorem empty_list_normalizes_to_empty_string :
    normalize_result (PyValue.list []) = Except.ok ""
  ∧ normalize_result (PyValue.list []) ≠ normalize_result PyValue.none
  ∧ normalize_result (PyValue.list []) = normalize_result (PyValue.str "") := by
  refine ⟨rfl, ?_, rfl⟩
  intro h
  have h2 : ("" : String) = no_results_sentinel := by
    simpa [normalize_result, pyJoin, allStrs, strJoin] using h
  exact absurd h2 (by decide)

/-- Claim C4: any error raised while processing a turn (a gateway
failure, an unknown tool, a handler failure, or a mid-session channel
fault — all surfacing as exceptions from the processing call) is caught
at the boundary of either Conversation Loop, converted into a printed
error message, and the loop continues with the next input line; only a
startup handshake failure propagates out of `connect_to_server_and_run`
and is fatal to session startup. -/
theorem per_turn_errors_are_caught :
    (∀ (p : String → Except PyErr PyValue) (line : String) (rest : List String)
        (e : PyErr),
        ¬ pyLower (pyStrip line) = "quit" → p (pyStrip line) = Except.error e →
        chat_loop_run p (line :: rest)
          = LoopEvent.dispatched (pyStrip line) ::
            LoopEvent.errorShown ("\n Error: " ++ pyErrStr e) ::
            chat_loop_run p rest)
  ∧ (∀ (p2 : String → Except PyErr (Option String)) (line : String)
        (rest : List String) (e : PyErr),
        ¬ pyLower (pyStrip line) = "quit" → p2 (pyStrip line) = Except.error e →
        mcp_chat_loop_run p2 (line :: rest)
          = LoopEvent.dispatched (pyStrip line) ::
            LoopEvent.errorShown ("\nError: " ++ pyErrStr e) ::
            mcp_chat_loop_run p2 rest)
  ∧ (∀ (e : PyErr) (lt : Except PyErr (List RemoteTool)) (lo : Except PyErr Unit),
        (connect_to_server_and_run (Except.error e) lt lo).outcome = Except.error e) := by
  refine ⟨?_, ?_, fun e lt lo => rfl⟩
  · intro p line rest e hq hp
    exact chat_loop_run_error p line rest e hq hp
  · intro p2 line rest e hq hp
    exact mcp_chat_loop_run_error p2 line rest e hq hp

/-- Claim C4 witness: a concrete failing turn in each loop is reported
and followed by the next turn, and a concrete handshake failure is
propagated. -/
theorem per_turn_errors_are_caught_witness :
    chat_loop_run (fun _ => Except.error (PyErr.exc "gateway down")) ["hi"]
      = LoopEvent.dispatched "hi" ::
        LoopEvent.errorShown ("\n Error: " ++ pyErrStr (PyErr.exc "gateway down")) ::
        chat_loop_run (fun _ => Except.error (PyErr.exc "gateway down")) []
    ∧ mcp_chat_loop_run (fun _ => Except.error (PyErr.exc "channel fault")) ["hi"]
        = LoopEvent.dispatched "hi" ::
          LoopEvent.errorShown ("\nError: " ++ pyErrStr (PyErr.exc "channel fault")) ::
          mcp_chat_loop_run (fun _ => Except.error (PyErr.exc "channel fault")) []
    ∧ (connect_to_server_and_run (Except.error (PyErr.exc "handshake failed"))
        (Except.ok []) (Except.ok ())).outcome
        = Except.error (PyErr.exc "handshake failed") :=
  ⟨per_turn_errors_are_caught.1 _ "hi" [] _ (by decide) rfl,
   per_turn_errors_are_caught.2.1 _ "hi" [] _ (by decide) rfl,
   per_turn_errors_are_caught.2.2 _ _ _⟩

/-- Claim C6: a tool name with no binding makes `execute_tool` fail with
a `KeyError` naming that tool (the UnknownTool failure), and an
unrecognised name in `process_query` raises `UnboundLocalError`; any
such error reaching the Conversation Loop boundary is reported as a
user-visible message and the loop continues with the next query; and a
registered name is bound to the handler of the most recent registration
(Python dict assignment replaces the previous binding). -/
theorem unknown_tool_reported_and_last_registration_wins :
    (∀ (nm : String) (args : Args) (m : List (String × Handler)),
        pyDictLookup m nm = Option.none →
        execute_tool nm args m = Except.error (PyErr.keyError nm))
  ∧ (∀ (sp ei : Handler) (nm : String) (args : Args),
        ¬ nm = "search_papers" → ¬ nm = "extract_info" →
        process_query sp ei (Intent.functionCall nm args)
          = Except.error (PyErr.unboundLocal "result"))
  ∧ (∀ (p : String → Except PyErr PyValue) (line : String) (rest : List String)
        (e : PyErr),
        ¬ pyLower (pyStrip line) = "quit" → p (pyStrip line) = Except.error e →
        chat_loop_run p (line :: rest)
          = LoopEvent.dispatched (pyStrip line) ::
            LoopEvent.errorShown ("\n Error: " ++ pyErrStr e) ::
            chat_loop_run p rest)
  ∧ (∀ (m : List (String × Handler)) (k : String) (v : Handler),
        pyDictLookup (pyDictSet m k v) k = some v) := by
  refine ⟨?_, ?_, ?_, pyDictLookup_set⟩
  · intro nm args m hm
    simp [execute_tool, hm]
  · intro sp ei nm args h1 h2
    simp [process_query, h1, h2]
  · intro p line rest e hq hp
    exact chat_loop_run_error p line rest e hq hp

/-- Claim C6 witness: looking up a name in a registry that only binds
another name fails with `KeyError`; the failure is reported by a loop
which then continues; a double registration resolves to the second
handler. -/
theorem unknown_tool_witness :
    execute_tool "unknown_tool" []
        [("search_papers", fun _ => Except.ok PyValue.none)]
      = Except.error (PyErr.keyError "unknown_tool")
    ∧ process_query (fun _ => Except.ok PyValue.none) (fun _ => Except.ok PyValue.none)
        (Intent.functionCall "unknown_tool" [])
      = Except.error (PyErr.unboundLocal "result")
    ∧ chat_loop_run (fun _ => Except.error (PyErr.keyError "unknown_tool")) ["use it"]
        = LoopEvent.dispatched "use it" ::
          LoopEvent.errorShown ("\n Error: " ++ pyErrStr (PyErr.keyError "unknown_tool")) ::
          chat_loop_run (fun _ => Except.error (PyErr.keyError "unknown_tool")) []
    ∧ pyDictLookup
        (pyDictSet (pyDictSet ([] : List (String × Handler)) "t"
            (fun _ => Except.ok PyValue.none))
          "t" (fun _ => Except.ok (PyValue.str "second"))) "t"
      = some ((fun _ => Except.ok (PyValue.str "second")) : Handler) :=
  ⟨unknown_tool_reported_and_last_registration_wins.1 "unknown_tool" [] _ rfl,
   unknown_tool_reported_and_last_registration_wins.2.1 _ _ "unknown_tool" []
     (by decide) (by decide),
   unknown_tool_reported_and_last_registration_wins.2.2.1 _ "use it" [] _
     (by decide) rfl,
   unknown_tool_reported_and_last_registration_wins.2.2.2 _ "t" _⟩

/-- Claim C7: the translation of a remote tool descriptor copies the
name and the description unchanged, and its parameter schema is the
host's `inputSchema` with exactly the entries keyed
`additionalProperties` and `$schema` removed and every other entry
preserved; on a successful connection, the registered declarations are
exactly the translations of the listed tools. -/
theorem remote_tool_translation (t : RemoteTool) :
    (translate_tool t).name = t.name
  ∧ (translate_tool t).description = t.description
  ∧ (translate_tool t).parameters
      = t.inputSchema.filter
          (fun kv => !(kv.1 == "additionalProperties" || kv.1 == "$schema"))
  ∧ (∀ kv, kv ∈ t.inputSchema →
        ¬ kv.1 = "additionalProperties" → ¬ kv.1 = "$schema" →
        kv ∈ (translate_tool t).parameters)
  ∧ (∀ kv, kv ∈ (translate_tool t).parameters →
        kv ∈ t.inputSchema ∧ ¬ kv.1 = "additionalProperties" ∧ ¬ kv.1 = "$schema")
  ∧ (∀ (tools : List RemoteTool) (lo : Except PyErr Unit),
        (connect_to_server_and_run (Except.ok ()) (Except.ok tools) lo).available_tools
          = tools.map translate_tool) := by
  refine ⟨rfl, rfl, rfl, ?_, ?_, fun tools lo => rfl⟩
  · intro kv hmem h1 h2
    simp only [translate_tool, List.mem_filter]
    refine ⟨hmem, ?_⟩
    simp [h1, h2]
  · intro kv hkv
    have h := List.mem_filter.mp hkv
    refine ⟨h.1, ?_, ?_⟩
    · intro heq
      simp [heq] at h
    · intro heq
      simp [heq] at h

/-- Claim C7 witness: a concrete schema loses exactly its
`additionalProperties` and `$schema` entries, and keeps the rest. -/
theorem remote_tool_translation_witness :
    (translate_tool ⟨"search_papers", "Search for papers",
        [("type", PyValue.str "object"),
         ("additionalProperties", PyValue.bool false),
         ("$schema", PyValue.str "http://json-schema.org/draft-07/schema#")]⟩).name
      = "search_papers"
    ∧ ("type", PyValue.str "object")
        ∈ (translate_tool ⟨"search_papers", "Search for papers",
            [("type", PyValue.str "object"),
             ("additionalProperties", PyValue.bool false),
             ("$schema", PyValue.str "http://json-schema.org/draft-07/schema#")]⟩).parameters :=
  ⟨(remote_tool_translation _).1,
   (remote_tool_translation _).2.2.2.1 ("type", PyValue.str "object")
     (by simp) (by decide) (by decide)⟩

/-- Claim C8: on every execution path of `connect_to_server_and_run` —
the loop returning after a quit or end-of-input, the loop raising, the
tool listing failing, or the startup handshake failing — the channel
close action occurs exactly once in the trace, never twice, and it is
the final action, so the channel is never left open past loop exit. -/
theorem channel_closed_exactly_once (handshake : Except PyErr Unit)
    (lt : Except PyErr (List RemoteTool)) (lo : Except PyErr Unit) :
    ((connect_to_server_and_run handshake lt lo).trace.count
        SessionAction.channelClosed = 1)
  ∧ ((connect_to_server_and_run handshake lt lo).trace.getLast?
        = some SessionAction.channelClosed) := by
  cases handshake with
  | error e => exact ⟨rfl, rfl⟩
  | ok u =>
    cases lt with
    | error e => exact ⟨rfl, rfl⟩
    | ok tools => exact ⟨rfl, rfl⟩

/-- Claim C10: the local loop displays a processed result only when it
is truthy: a falsy result (in particular `None` — which every
plain-text turn returns — the empty string, or an empty list) prints
nothing and the loop silently proceeds to await the next query, while a
truthy result is printed. -/
theorem result_displayed_only_when_truthy :
    (∀ (p : String → Except PyErr PyValue) (line : String) (rest : List String)
        (v : PyValue),
        ¬ pyLower (pyStrip line) = "quit" → p (pyStrip line) = Except.ok v →
        pyTruthy v = false →
        chat_loop_run p (line :: rest)
          = LoopEvent.dispatched (pyStrip line) :: chat_loop_run p rest)
  ∧ (∀ (p : String → Except PyErr PyValue) (line : String) (rest : List String)
        (v : PyValue),
        ¬ pyLower (pyStrip line) = "quit" → p (pyStrip line) = Except.ok v →
        pyTruthy v = true →
        chat_loop_run p (line :: rest)
          = LoopEvent.dispatched (pyStrip line) ::
            LoopEvent.resultShown (pyStr v) :: chat_loop_run p rest)
  ∧ pyTruthy PyValue.none = false
  ∧ pyTruthy (PyValue.str "") = false
  ∧ pyTruthy (PyValue.list []) = false
  ∧ (∀ (sp ei : Handler) (t : String),
        process_query sp ei (Intent.plainText t) = Except.ok PyValue.none) := by
  refine ⟨?_, ?_, rfl, rfl, rfl, fun sp ei t => rfl⟩
  · intro p line rest v hq hp hf
    rw [chat_loop_run_ok p line rest v hq hp, hf]
    simp
  · intro p line rest v hq hp ht
    rw [chat_loop_run_ok p line rest v hq hp, ht]
    simp

/-- Claim C10 witness: a plain-text turn (processed result `None`)
prints no result, and a truthy string result is printed. -/
theorem result_displayed_only_when_truthy_witness :
    chat_loop_run (fun _ => Except.ok PyValue.none) ["hello"]
      = LoopEvent.dispatched "hello" ::
        chat_loop_run (fun _ => Except.ok PyValue.none) []
    ∧ chat_loop_run (fun _ => Except.ok (PyValue.str "found")) ["hello"]
        = LoopEvent.dispatched "hello" :: LoopEvent.resultShown "found" ::
          chat_loop_run (fun _ => Except.ok (PyValue.str "found")) [] :=
  ⟨result_displayed_only_when_truthy.1 _ "hello" [] PyValue.none
     (by decide) rfl rfl,
   result_displayed_only_when_truthy.2.1 _ "hello" [] (PyValue.str "found")
     (by decide) rfl rfl⟩

end McpSpec
